import Mathlib

/-!
Shallow embedding of the casualty-aggregation core of the NYC
pedestrian-casualty analysis scripts.

Numeric fields are modelled exactly: a cell that survives the scripts
conversion `int(pd.to_numeric(x, errors="coerce") or 0)` is an integer,
a cell that does not (non-numeric, missing: `pd.to_numeric` yields NaN,
which is truthy, and `int(NaN)` raises) is `none`.  Tallies are exact
rationals standing for the float accumulators.  An aggregate table is a
total function from category and year to the pair (injured, killed),
zero outside the touched keys, mirroring the `defaultdict` of the source.
-/

/-- Static lookup table translated from `get_vehicle_category_mapping`
in src/yearly_trends_analysis.py (identical copy in
src/pedestrian_analysis_consolidated.py). -/
def category_mapping : List (String × String) :=
  [ ("Sedan", "Passenger Vehicles"),
    ("SEDAN", "Passenger Vehicles"),
    ("4 dr sedan", "Passenger Vehicles"),
    ("Station Wagon/Sport Utility Vehicle", "Passenger Vehicles"),
    ("SPORT UTILITY / STATION WAGON", "Passenger Vehicles"),
    ("PASSENGER VEHICLE", "Passenger Vehicles"),
    ("Pick-up Truck", "Passenger Vehicles"),
    ("PICK-UP TRUCK", "Passenger Vehicles"),
    ("PK", "Passenger Vehicles"),
    ("Convertible", "Passenger Vehicles"),
    ("Taxi", "Taxi/Livery"),
    ("TAXI", "Taxi/Livery"),
    ("LIVERY VEHICLE", "Taxi/Livery"),
    ("Bus", "Large/Commercial Vehicles"),
    ("BUS", "Large/Commercial Vehicles"),
    ("Box Truck", "Large/Commercial Vehicles"),
    ("BOX TRUCK", "Large/Commercial Vehicles"),
    ("Dump", "Large/Commercial Vehicles"),
    ("DUMP", "Large/Commercial Vehicles"),
    ("Tractor Truck Diesel", "Large/Commercial Vehicles"),
    ("TRACTOR TRUCK DIESEL", "Large/Commercial Vehicles"),
    ("Garbage or Refuse", "Large/Commercial Vehicles"),
    ("GARBAGE OR REFUSE", "Large/Commercial Vehicles"),
    ("LARGE COM VEH(6 OR MORE TIRES)", "Large/Commercial Vehicles"),
    ("SMALL COM VEH(4 TIRES)", "Large/Commercial Vehicles"),
    ("Ambulance", "Large/Commercial Vehicles"),
    ("AMBULANCE", "Large/Commercial Vehicles"),
    ("Fire Truck", "Large/Commercial Vehicles"),
    ("FIRE TRUCK", "Large/Commercial Vehicles"),
    ("Flat Bed", "Large/Commercial Vehicles"),
    ("Motorcycle", "Motorcycles"),
    ("MOTORCYCLE", "Motorcycles"),
    ("Motorbike", "Motorcycles"),
    ("Moped", "Motorcycles"),
    ("MOPED", "Motorcycles"),
    ("Bike", "Bicycles/Scooters"),
    ("BIKE", "Bicycles/Scooters"),
    ("E-Bike", "Bicycles/Scooters"),
    ("E-BIKE", "Bicycles/Scooters"),
    ("E-Scooter", "Bicycles/Scooters"),
    ("E-SCOOTER", "Bicycles/Scooters"),
    ("Van", "Van"),
    ("VAN", "Van"),
    ("UNKNOWN", "Other/Unknown"),
    ("OTHER", "Other/Unknown") ]

/-- Static lookup table translated from the local `bike_mapping` inside
`extract_bike_data_by_year` in src/bike_vs_ebike_analysis.py. -/
def bike_mapping : List (String × String) :=
  [ ("Bike", "Traditional Bicycle"),
    ("BIKE", "Traditional Bicycle"),
    ("E-Bike", "E-Bike"),
    ("E-BIKE", "E-Bike"),
    ("E-Scooter", "E-Scooter"),
    ("E-SCOOTER", "E-Scooter") ]

/-- Model of the Python str.strip method used on every vehicle-type cell:
drop whitespace characters from both ends.  Written by structural
recursion on the character list so that concrete instances reduce. -/
def pyStrip (s : String) : String :=
  String.mk
    (((s.data.dropWhile Char.isWhitespace).reverse.dropWhile
        Char.isWhitespace).reverse)

/-- Model of the Python str.upper method used in the sentinel test:
uppercase every character. -/
def pyUpper (s : String) : String :=
  String.mk (s.data.map Char.toUpper)

/-- Coarse classification of an already-trimmed label:
`category_mapping.get(vehicle_type, "Other/Unknown")` in the source. -/
def classify (s : String) : String :=
  (category_mapping.lookup s).getD "Other/Unknown"

/-- One input row after the pandas loading stage.  `year` is `none` when
`int(row["YEAR"])` would raise, `labels` holds the five vehicle-type slots
(`none` for a NaN cell), and `injured` / `killed` are `none` when the
numeric conversion raises. -/
structure RawRecord where
  year : Option Int
  labels : List (Option String)
  injured : Option Int
  killed : Option Int

/-- Slot filter of the coarse folds: keep a slot when the cell is not NaN,
its trimmed text is nonempty, and the uppercased trim is none of
"", "UNKNOWN", "NAN"; the kept value is the trimmed text.  Translates
`pd.notna(vehicle) and str(vehicle).strip() and
str(vehicle).strip().upper() not in ["", "UNKNOWN", "NAN"]`. -/
def validLabel (v : Option String) : Option String :=
  match v with
  | none => none
  | some s =>
    let t := pyStrip s
    if t ≠ "" ∧ pyUpper t ∉ (["", "UNKNOWN", "NAN"] : List String) then some t
    else none

/-- Category list of one record in `extract_yearly_data_by_category`
(and `extract_and_categorize_vehicles`): each surviving slot is mapped
through the category table with fallback "Other/Unknown". -/
def vehiclesInCollision (labels : List (Option String)) : List String :=
  labels.filterMap (fun v => (validLabel v).map classify)

/-- Bike-type list of one record in `extract_bike_data_by_year`: a slot
is kept only when its trimmed text is a key of `bike_mapping`
(`pd.notna(vehicle) and str(vehicle).strip() in bike_mapping`); there is
no fallback, unknown labels are dropped. -/
def bikesInCollision (labels : List (Option String)) : List String :=
  labels.filterMap (fun v =>
    match v with
    | none => none
    | some s => bike_mapping.lookup (pyStrip s))

/-- Aggregate table: category and year to (injured, killed), zero by
default as with the nested `defaultdict`. -/
abbrev AggregateTable := String → Int → ℚ × ℚ

/-- The initial, all-zero table. -/
def emptyTable : AggregateTable := fun _ _ => (0, 0)

/-- One `+=` into the nested tally dictionary:
`yearly_data[category][year]["injured"] += di` and likewise for killed. -/
def addTally (t : AggregateTable) (c : String) (y : Int) (di dk : ℚ) :
    AggregateTable :=
  fun c2 y2 =>
    if c2 = c ∧ y2 = y then ((t c2 y2).1 + di, (t c2 y2).2 + dk)
    else t c2 y2

/-- Worker for first-seen-order deduplication: keep an element when it
has not been seen yet. -/
def dedupFirstAux (seen : List String) : List String → List String
  | [] => []
  | a :: l =>
    if a ∈ seen then dedupFirstAux seen l
    else a :: dedupFirstAux (a :: seen) l

/-- First-seen-order deduplication, `list(dict.fromkeys(xs))` in the
source. -/
def dedupFirst (l : List String) : List String :=
  dedupFirstAux [] l

/-- Projection factor computed in `extract_yearly_data_by_category` and
`extract_bike_data_by_year`:
`365 / days_in_2025 if days_in_2025 > 0 else 1.0`. -/
def projectionFactor (daysIn2025 : Int) : ℚ :=
  if 0 < daysIn2025 then 365 / (daysIn2025 : ℚ) else 1

/-- Body of the per-row loop of `extract_yearly_data_by_category` in
src/yearly_trends_analysis.py.  A row whose numeric conversion raises is
skipped (`continue`); a year-2025 row has both counts pre-multiplied by
the projection factor; surviving slots are classified, an empty category
list skips the row, the list is deduplicated first-seen, and each of the
n distinct categories receives injured / n and killed / n at the rows
year. -/
def foldRecord (factor : ℚ) (t : AggregateTable) (r : RawRecord) :
    AggregateTable :=
  match r.injured, r.killed, r.year with
  | some i0, some k0, some y =>
    let i : ℚ := if y = 2025 then (i0 : ℚ) * factor else (i0 : ℚ)
    let k : ℚ := if y = 2025 then (k0 : ℚ) * factor else (k0 : ℚ)
    let vic := vehiclesInCollision r.labels
    if vic = [] then t
    else
      let uniq := dedupFirst vic
      let n : ℚ := uniq.length
      uniq.foldl (fun t2 c => addTally t2 c y (i / n) (k / n)) t
  | _, _, _ => t

/-- Body of the per-row loop of `extract_bike_data_by_year` in
src/bike_vs_ebike_analysis.py: same shape as `foldRecord` except that
rows with year before 2020 are skipped and slots go through
`bike_mapping` with no fallback. -/
def foldBikeRecord (factor : ℚ) (t : AggregateTable) (r : RawRecord) :
    AggregateTable :=
  match r.injured, r.killed, r.year with
  | some i0, some k0, some y =>
    if y < 2020 then t
    else
      let i : ℚ := if y = 2025 then (i0 : ℚ) * factor else (i0 : ℚ)
      let k : ℚ := if y = 2025 then (k0 : ℚ) * factor else (k0 : ℚ)
      let bic := bikesInCollision r.labels
      if bic = [] then t
      else
        let uniq := dedupFirst bic
        let n : ℚ := uniq.length
        uniq.foldl (fun t2 c => addTally t2 c y (i / n) (k / n)) t
  | _, _, _ => t

/-- Flat per-vehicle table of src/pedestrian_analysis.py: raw trimmed
label to (injured, killed). -/
abbrev VehicleTable := String → ℚ × ℚ

/-- The initial, all-zero per-vehicle table. -/
def emptyVehicleTable : VehicleTable := fun _ => (0, 0)

/-- One `+=` into the flat per-vehicle dictionary. -/
def vehAddTally (t : VehicleTable) (c : String) (di dk : ℚ) : VehicleTable :=
  fun c2 => if c2 = c then ((t c2).1 + di, (t c2).2 + dk) else t c2

/-- Body of the per-row loop of `extract_vehicle_types` in
src/pedestrian_analysis.py: a failing numeric conversion sets both counts
to 0 (`except: injured = killed = 0`) and the row is still processed;
surviving slots keep their raw trimmed text (no classification, no
deduplication) and each slot, with multiplicity, receives
injured / len and killed / len. -/
def foldVehicleRecord (t : VehicleTable) (r : RawRecord) : VehicleTable :=
  let p : Int × Int :=
    match r.injured, r.killed with
    | some i, some k => (i, k)
    | _, _ => (0, 0)
  let vic := r.labels.filterMap validLabel
  if vic = [] then t
  else
    let n : ℚ := vic.length
    vic.foldl (fun t2 c => vehAddTally t2 c ((p.1 : ℚ) / n) ((p.2 : ℚ) / n)) t

/-- Modelled from the spec: the table-level projector
`project(table, incomplete_bucket, observed_days, nominal)` is not a
standalone function in the source (the scripts apply the factor inline,
pre-fold, to year-2025 rows); following section 4.3 of the spec it
multiplies both tallies of every category for the given bucket by the
factor and leaves other buckets untouched. -/
def projectBucket (factor : ℚ) (bucket : Int) (t : AggregateTable) :
    AggregateTable :=
  fun c y =>
    if y = bucket then (factor * (t c y).1, factor * (t c y).2)
    else t c y

/-- Modelled from the spec: folding with each records parsed injured and
killed pre-multiplied by the factor (section 8, property 5: records with
injured/killed pre-multiplied by factor before folding).  The source does
exactly this, but only for rows whose year is 2025; this variant applies
the pre-multiplication to every row so the commutation law can be stated
for an arbitrary bucket.  At factor 1 it is the plain unscaled fold. -/
def foldRecordPre (factor : ℚ) (t : AggregateTable) (r : RawRecord) :
    AggregateTable :=
  match r.injured, r.killed, r.year with
  | some i0, some k0, some y =>
    let i : ℚ := (i0 : ℚ) * factor
    let k : ℚ := (k0 : ℚ) * factor
    let vic := vehiclesInCollision r.labels
    if vic = [] then t
    else
      let uniq := dedupFirst vic
      let n : ℚ := uniq.length
      uniq.foldl (fun t2 c => addTally t2 c y (i / n) (k / n)) t
  | _, _, _ => t

/-- Fine-grained scenario of claim C3: three same-year records with label
lists Bike; Bike, Car; BIKE, E-BIKE and injured counts 10, 6, 9 (killed
all 0), folded by the bike fold with factor 1.  The year 2023 is at or
after the 2020 cutoff and is not the projected year 2025. -/
def bikeScenarioTable : AggregateTable :=
  [ (⟨some 2023, [some "Bike"], some 10, some 0⟩ : RawRecord),
    ⟨some 2023, [some "Bike", some "Car"], some 6, some 0⟩,
    ⟨some 2023, [some "BIKE", some "E-BIKE"], some 9, some 0⟩ ].foldl
    (foldBikeRecord 1) emptyTable

lemma mem_dedupFirstAux (c : String) :
    ∀ (l seen : List String), c ∈ dedupFirstAux seen l ↔ c ∈ l ∧ c ∉ seen := by
  intro l
  induction l with
  | nil => intro seen; simp [dedupFirstAux]
  | cons a l ih =>
    intro seen
    by_cases h : a ∈ seen
    · rw [dedupFirstAux, if_pos h, ih]
      by_cases hca : c = a
      · subst hca; simp [h]
      · simp [hca]
    · rw [dedupFirstAux, if_neg h]
      by_cases hca : c = a
      · subst hca; simp [h]
      · simp [hca, ih, List.mem_cons]

lemma nodup_dedupFirstAux :
    ∀ (l seen : List String), (dedupFirstAux seen l).Nodup := by
  intro l
  induction l with
  | nil => intro seen; simp [dedupFirstAux]
  | cons a l ih =>
    intro seen
    by_cases h : a ∈ seen
    · rw [dedupFirstAux, if_pos h]; exact ih seen
    · rw [dedupFirstAux, if_neg h]
      refine List.nodup_cons.mpr ⟨fun hmem => ?_, ih (a :: seen)⟩
      exact ((mem_dedupFirstAux a l (a :: seen)).mp hmem).2 (List.mem_cons_self a seen)

lemma sublist_dedupFirstAux :
    ∀ (l seen : List String), (dedupFirstAux seen l).Sublist l := by
  intro l
  induction l with
  | nil => intro seen; simp [dedupFirstAux]
  | cons a l ih =>
    intro seen
    by_cases h : a ∈ seen
    · rw [dedupFirstAux, if_pos h]; exact (ih seen).cons a
    · rw [dedupFirstAux, if_neg h]; exact (ih (a :: seen)).cons₂ a

lemma mem_dedupFirst (c : String) (l : List String) :
    c ∈ dedupFirst l ↔ c ∈ l := by
  rw [dedupFirst, mem_dedupFirstAux]; simp

lemma nodup_dedupFirst (l : List String) : (dedupFirst l).Nodup :=
  nodup_dedupFirstAux l []

lemma sublist_dedupFirst (l : List String) : (dedupFirst l).Sublist l :=
  sublist_dedupFirstAux l []

lemma dedupFirst_ne_nil (l : List String) (h : l ≠ []) : dedupFirst l ≠ [] := by
  match l with
  | [] => exact absurd rfl h
  | a :: l => rw [dedupFirst, dedupFirstAux]; simp

/-- Pointwise value of the accumulation loop over a duplicate-free
category list: a member of the list at the folded year gains the two
shares, everything else is untouched. -/
lemma foldl_addTally_apply (y : Int) (di dk : ℚ) :
    ∀ (l : List String) (t : AggregateTable) (c : String) (y2 : Int),
      l.Nodup →
      (l.foldl (fun t2 c2 => addTally t2 c2 y di dk) t) c y2 =
        if c ∈ l ∧ y2 = y then ((t c y2).1 + di, (t c y2).2 + dk)
        else t c y2 := by
  intro l
  induction l with
  | nil => intro t c y2 _; simp
  | cons a l ih =>
    intro t c y2 hnd
    rw [List.foldl_cons, ih _ _ _ (List.nodup_cons.mp hnd).2]
    by_cases hc : c ∈ l
    · have hca : c ≠ a := fun he => (List.nodup_cons.mp hnd).1 (he ▸ hc)
      by_cases hy2 : y2 = y
      · simp [hc, hy2, addTally, hca]
      · simp [addTally, hy2]
    · by_cases hca : c = a
      · subst hca
        by_cases hy2 : y2 = y
        · simp [hc, hy2, addTally]
        · simp [hc, hy2, addTally]
      · simp [hc, hca, addTally]

lemma list_sum_const (x : ℚ) :
    ∀ l : List String, (l.map (fun _ => x)).sum = (l.length : ℚ) * x := by
  intro l
  induction l with
  | nil => simp
  | cons a l ih => simp [ih]; ring

/-- Pointwise value of one step of the yearly fold when the row survives
all row-level checks. -/
lemma foldRecord_apply (factor : ℚ) (t : AggregateTable) (r : RawRecord)
    (i0 k0 y : Int) (hi : r.injured = some i0) (hk : r.killed = some k0)
    (hy : r.year = some y) (hne : vehiclesInCollision r.labels ≠ [])
    (c : String) (y2 : Int) :
    (foldRecord factor t r) c y2 =
      if c ∈ dedupFirst (vehiclesInCollision r.labels) ∧ y2 = y then
        ((t c y2).1 +
            (if y = 2025 then (i0 : ℚ) * factor else (i0 : ℚ)) /
              ((dedupFirst (vehiclesInCollision r.labels)).length : ℚ),
          (t c y2).2 +
            (if y = 2025 then (k0 : ℚ) * factor else (k0 : ℚ)) /
              ((dedupFirst (vehiclesInCollision r.labels)).length : ℚ))
      else t c y2 := by
  obtain ⟨yr, ls, inj, kil⟩ := r
  simp only at hi hk hy hne
  subst hi hk hy
  rw [foldRecord]
  simp only [if_neg hne]
  exact foldl_addTally_apply y _ _ _ t c y2
    (nodup_dedupFirst (vehiclesInCollision ls))

/-- Pointwise value of one step of the bike fold when the row survives
all row-level checks, including the year-2020 cutoff. -/
lemma foldBikeRecord_apply (factor : ℚ) (t : AggregateTable) (r : RawRecord)
    (i0 k0 y : Int) (hi : r.injured = some i0) (hk : r.killed = some k0)
    (hy : r.year = some y) (hcut : ¬ y < 2020)
    (hne : bikesInCollision r.labels ≠ [])
    (c : String) (y2 : Int) :
    (foldBikeRecord factor t r) c y2 =
      if c ∈ dedupFirst (bikesInCollision r.labels) ∧ y2 = y then
        ((t c y2).1 +
            (if y = 2025 then (i0 : ℚ) * factor else (i0 : ℚ)) /
              ((dedupFirst (bikesInCollision r.labels)).length : ℚ),
          (t c y2).2 +
            (if y = 2025 then (k0 : ℚ) * factor else (k0 : ℚ)) /
              ((dedupFirst (bikesInCollision r.labels)).length : ℚ))
      else t c y2 := by
  obtain ⟨yr, ls, inj, kil⟩ := r
  simp only at hi hk hy hne
  subst hi hk hy
  rw [foldBikeRecord]
  simp only [if_neg hcut, if_neg hne]
  exact foldl_addTally_apply y _ _ _ t c y2
    (nodup_dedupFirst (bikesInCollision ls))

/-- Pointwise value of one step of the uniformly pre-scaled fold when the
row survives all row-level checks. -/
lemma foldRecordPre_apply (factor : ℚ) (t : AggregateTable) (r : RawRecord)
    (i0 k0 y : Int) (hi : r.injured = some i0) (hk : r.killed = some k0)
    (hy : r.year = some y) (hne : vehiclesInCollision r.labels ≠ [])
    (c : String) (y2 : Int) :
    (foldRecordPre factor t r) c y2 =
      if c ∈ dedupFirst (vehiclesInCollision r.labels) ∧ y2 = y then
        ((t c y2).1 +
            (i0 : ℚ) * factor /
              ((dedupFirst (vehiclesInCollision r.labels)).length : ℚ),
          (t c y2).2 +
            (k0 : ℚ) * factor /
              ((dedupFirst (vehiclesInCollision r.labels)).length : ℚ))
      else t c y2 := by
  obtain ⟨yr, ls, inj, kil⟩ := r
  simp only at hi hk hy hne
  subst hi hk hy
  rw [foldRecordPre]
  simp only [if_neg hne]
  exact foldl_addTally_apply y _ _ _ t c y2
    (nodup_dedupFirst (vehiclesInCollision ls))

/-- A row whose numeric conversion fails is skipped by the yearly fold. -/
lemma foldRecord_malformed (factor : ℚ) (t : AggregateTable) (r : RawRecord)
    (h : r.injured = none ∨ r.killed = none) :
    foldRecord factor t r = t := by
  obtain ⟨yr, ls, inj, kil⟩ := r
  simp only at h
  rcases inj with _ | i0
  · cases kil <;> cases yr <;> rfl
  · rcases kil with _ | k0
    · cases yr <;> rfl
    · rcases h with h | h <;> exact absurd h (Option.some_ne_none _)

/-- A row whose numeric conversion fails is skipped by the bike fold. -/
lemma foldBikeRecord_malformed (factor : ℚ) (t : AggregateTable)
    (r : RawRecord) (h : r.injured = none ∨ r.killed = none) :
    foldBikeRecord factor t r = t := by
  obtain ⟨yr, ls, inj, kil⟩ := r
  simp only at h
  rcases inj with _ | i0
  · cases kil <;> cases yr <;> rfl
  · rcases kil with _ | k0
    · cases yr <;> rfl
    · rcases h with h | h <;> exact absurd h (Option.some_ne_none _)

lemma vehAddTally_zero (t : VehicleTable) (c : String) :
    vehAddTally t c 0 0 = t := by
  funext c2
  by_cases h : c2 = c <;> simp [vehAddTally, h]

lemma foldl_vehAddTally_zero :
    ∀ (l : List String) (t : VehicleTable),
      l.foldl (fun t2 c => vehAddTally t2 c 0 0) t = t := by
  intro l
  induction l with
  | nil => intro t; rfl
  | cons a l ih =>
    intro t
    rw [List.foldl_cons, vehAddTally_zero]
    exact ih t

/-- A row whose numeric conversion fails degrades to counts (0, 0) in the
per-vehicle fold, so the table is numerically unchanged. -/
lemma foldVehicleRecord_degraded (t : VehicleTable) (r : RawRecord)
    (h : r.injured = none ∨ r.killed = none) :
    foldVehicleRecord t r = t := by
  obtain ⟨yr, ls, inj, kil⟩ := r
  simp only at h
  have hm : (match inj, kil with
      | some i, some k => ((i, k) : Int × Int)
      | _, _ => ((0 : Int), (0 : Int))) = (0, 0) := by
    rcases h with h | h <;> subst h
    · rfl
    · cases inj <;> rfl
  rw [foldVehicleRecord]
  simp only [hm, Int.cast_zero, zero_div]
  by_cases hv : ls.filterMap validLabel = []
  · rw [if_pos hv]
  · rw [if_neg hv]
    exact foldl_vehAddTally_zero _ t

/-- One yearly fold step preserves nonnegativity of every tally when the
factor and the parsed counts are nonnegative. -/
lemma foldRecord_preserves_nonneg (factor : ℚ) (hf : 0 ≤ factor)
    (t : AggregateTable) (r : RawRecord)
    (ht : ∀ c y, 0 ≤ (t c y).1 ∧ 0 ≤ (t c y).2)
    (hi : ∀ i, r.injured = some i → 0 ≤ i)
    (hk : ∀ k, r.killed = some k → 0 ≤ k) :
    ∀ c y, 0 ≤ ((foldRecord factor t r) c y).1 ∧
      0 ≤ ((foldRecord factor t r) c y).2 := by
  obtain ⟨yr, ls, inj, kil⟩ := r
  rcases inj with _ | i0
  · intro c y; exact ht c y
  rcases kil with _ | k0
  · intro c y; exact ht c y
  rcases yr with _ | y0
  · intro c y; exact ht c y
  have hi0 : (0 : ℚ) ≤ (i0 : ℚ) := by
    exact_mod_cast hi i0 rfl
  have hk0 : (0 : ℚ) ≤ (k0 : ℚ) := by
    exact_mod_cast hk k0 rfl
  intro c y
  by_cases hne : vehiclesInCollision ls = []
  · rw [foldRecord]
    simp only [if_pos hne]
    exact ht c y
  · rw [foldRecord_apply factor t ⟨some y0, ls, some i0, some k0⟩ i0 k0 y0
      rfl rfl rfl hne c y]
    split
    · have hIn : (0 : ℚ) ≤ (if y0 = 2025 then (i0 : ℚ) * factor else (i0 : ℚ)) := by
        split
        · exact mul_nonneg hi0 hf
        · exact hi0
      have hKn : (0 : ℚ) ≤ (if y0 = 2025 then (k0 : ℚ) * factor else (k0 : ℚ)) := by
        split
        · exact mul_nonneg hk0 hf
        · exact hk0
      have hLn : (0 : ℚ) ≤
          ((dedupFirst (vehiclesInCollision ls)).length : ℚ) := by
        positivity
      exact ⟨add_nonneg (ht c y).1 (div_nonneg hIn hLn),
        add_nonneg (ht c y).2 (div_nonneg hKn hLn)⟩
    · exact ht c y

/-- The table-level projector fixes the all-zero table. -/
lemma projectBucket_emptyTable (f : ℚ) (y : Int) :
    projectBucket f y emptyTable = emptyTable := by
  funext c y2
  by_cases h : y2 = y <;> simp [projectBucket, emptyTable, h]

/-- Projecting after one unscaled fold step equals one pre-scaled fold
step after projecting, for a row of the projected bucket. -/
lemma projectBucket_foldRecordPre (f : ℚ) (y : Int) (t : AggregateTable)
    (r : RawRecord) (hy : r.year = some y) :
    projectBucket f y (foldRecordPre 1 t r) =
      foldRecordPre f (projectBucket f y t) r := by
  obtain ⟨yr, ls, inj, kil⟩ := r
  simp only at hy
  subst hy
  rcases inj with _ | i0
  · rfl
  rcases kil with _ | k0
  · rfl
  by_cases hne : vehiclesInCollision ls = []
  · rw [foldRecordPre, foldRecordPre]
    simp only [if_pos hne]
  · funext c y2
    rw [foldRecordPre_apply f (projectBucket f y t)
      ⟨some y, ls, some i0, some k0⟩ i0 k0 y rfl rfl rfl hne c y2,
      projectBucket,
      foldRecordPre_apply 1 t
        ⟨some y, ls, some i0, some k0⟩ i0 k0 y rfl rfl rfl hne c y2,
      projectBucket]
    by_cases hy2 : y2 = y
    · subst hy2
      by_cases hc : c ∈ dedupFirst (vehiclesInCollision ls)
      · simp [hc]
        constructor <;> ring
      · simp [hc]
    · simp [hy2]

/-- Projecting a fully-folded run of rows of one bucket equals folding
the same rows pre-scaled, over any starting table already projected. -/
lemma projectBucket_foldl (f : ℚ) (y : Int) :
    ∀ (rs : List RawRecord), (∀ r ∈ rs, r.year = some y) →
      ∀ t : AggregateTable,
        projectBucket f y (rs.foldl (foldRecordPre 1) t) =
          rs.foldl (foldRecordPre f) (projectBucket f y t) := by
  intro rs
  induction rs with
  | nil => intro _ t; rfl
  | cons a rs ih =>
    intro h t
    rw [List.foldl_cons, List.foldl_cons,
      ih (fun r hr => h r (List.mem_cons_of_mem a hr)) (foldRecordPre 1 t a),
      projectBucket_foldRecordPre f y t a (h a (List.mem_cons_self a rs))]

/-- For a row of the projected year 2025, the source fold coincides with
the uniformly pre-scaled fold. -/
lemma foldRecord_eq_pre_2025 (g : ℚ) (t : AggregateTable) (r : RawRecord)
    (hy : r.year = some 2025) :
    foldRecord g t r = foldRecordPre g t r := by
  obtain ⟨yr, ls, inj, kil⟩ := r
  simp only at hy
  subst hy
  rcases inj with _ | i0
  · rfl
  rcases kil with _ | k0
  · rfl
  rw [foldRecord, foldRecordPre]
  norm_num

/-- For a run of rows all of year 2025, the source fold coincides with
the uniformly pre-scaled fold. -/
lemma foldl_foldRecord_eq_pre_2025 (g : ℚ) :
    ∀ (rs : List RawRecord), (∀ r ∈ rs, r.year = some 2025) →
      ∀ t : AggregateTable,
        rs.foldl (foldRecord g) t = rs.foldl (foldRecordPre g) t := by
  intro rs
  induction rs with
  | nil => intro _ t; rfl
  | cons a rs ih =>
    intro h t
    rw [List.foldl_cons, List.foldl_cons,
      foldRecord_eq_pre_2025 g t a (h a (List.mem_cons_self a rs)),
      ih (fun r hr => h r (List.mem_cons_of_mem a hr))]

/-- C1 (Conservation): for every single record folded into the yearly
aggregate that parses to injured count I and killed count K and resolves
to n >= 1 distinct categories, the sum over those n categories of the
per-category injured contributions added by the fold equals the injured
count the fold distributes, exactly, in rational arithmetic, and likewise
for killed.  For a year other than 2025 the distributed count is the
parsed count itself; for year 2025 it is the parsed count times the
projection factor applied inline by the source. -/
theorem claim_C1_conservation (factor : ℚ) (t : AggregateTable)
    (r : RawRecord) (i0 k0 y : Int)
    (hi : r.injured = some i0) (hk : r.killed = some k0)
    (hy : r.year = some y)
    (hne : vehiclesInCollision r.labels ≠ []) :
    (((dedupFirst (vehiclesInCollision r.labels)).map
        (fun c => ((foldRecord factor t r) c y).1 - (t c y).1)).sum
      = (if y = 2025 then (i0 : ℚ) * factor else (i0 : ℚ)))
    ∧ (((dedupFirst (vehiclesInCollision r.labels)).map
        (fun c => ((foldRecord factor t r) c y).2 - (t c y).2)).sum
      = (if y = 2025 then (k0 : ℚ) * factor else (k0 : ℚ))) := by
  have hnil : dedupFirst (vehiclesInCollision r.labels) ≠ [] :=
    dedupFirst_ne_nil _ hne
  have hlen0 : (dedupFirst (vehiclesInCollision r.labels)).length ≠ 0 := by
    simpa [List.length_eq_zero] using hnil
  have hlen : ((dedupFirst (vehiclesInCollision r.labels)).length : ℚ) ≠ 0 :=
    Nat.cast_ne_zero.mpr hlen0
  constructor
  · have hmap : (dedupFirst (vehiclesInCollision r.labels)).map
        (fun c => ((foldRecord factor t r) c y).1 - (t c y).1)
      = (dedupFirst (vehiclesInCollision r.labels)).map
        (fun _ => (if y = 2025 then (i0 : ℚ) * factor else (i0 : ℚ)) /
          ((dedupFirst (vehiclesInCollision r.labels)).length : ℚ)) :=
      List.map_congr_left (fun c hc => by
        rw [foldRecord_apply factor t r i0 k0 y hi hk hy hne c y,
          if_pos ⟨hc, rfl⟩]
        simp)
    rw [hmap, list_sum_const, mul_comm, div_mul_cancel₀ _ hlen]
  · have hmap : (dedupFirst (vehiclesInCollision r.labels)).map
        (fun c => ((foldRecord factor t r) c y).2 - (t c y).2)
      = (dedupFirst (vehiclesInCollision r.labels)).map
        (fun _ => (if y = 2025 then (k0 : ℚ) * factor else (k0 : ℚ)) /
          ((dedupFirst (vehiclesInCollision r.labels)).length : ℚ)) :=
      List.map_congr_left (fun c hc => by
        rw [foldRecord_apply factor t r i0 k0 y hi hk hy hne c y,
          if_pos ⟨hc, rfl⟩]
        simp)
    rw [hmap, list_sum_const, mul_comm, div_mul_cancel₀ _ hlen]

/-- Witness for C1 at a concrete record: labels Sedan and Bike, injured
10, killed 4, year 2023, two distinct categories. -/
theorem claim_C1_conservation_witness :
    (((dedupFirst (vehiclesInCollision [some "Sedan", some "Bike"])).map
        (fun c => ((foldRecord 1 emptyTable
            ⟨some 2023, [some "Sedan", some "Bike"], some 10, some 4⟩) c 2023).1
          - (emptyTable c 2023).1)).sum
      = (if (2023 : Int) = 2025 then ((10 : Int) : ℚ) * 1 else ((10 : Int) : ℚ)))
    ∧ (((dedupFirst (vehiclesInCollision [some "Sedan", some "Bike"])).map
        (fun c => ((foldRecord 1 emptyTable
            ⟨some 2023, [some "Sedan", some "Bike"], some 10, some 4⟩) c 2023).2
          - (emptyTable c 2023).2)).sum
      = (if (2023 : Int) = 2025 then ((4 : Int) : ℚ) * 1 else ((4 : Int) : ℚ))) :=
  claim_C1_conservation 1 emptyTable
    ⟨some 2023, [some "Sedan", some "Bike"], some 10, some 4⟩ 10 4 2023
    rfl rfl rfl (by decide)

/-- C2 (Even split over distinct categories): one yearly fold step first
classifies each non-sentinel label, deduplicates the category list
preserving first-seen order (the deduplicated list is duplicate-free, is
a sublist of the classified list, and keeps exactly its members), and
with n the number of distinct categories adds exactly injured / n and
killed / n to each of those n categories at the records year, touching
nothing else.  In particular labels Sedan, SEDAN, Bike classify to three
raw categories but only two distinct ones, in first-seen order. -/
theorem claim_C2_even_split (factor : ℚ) (t : AggregateTable)
    (r : RawRecord) (i0 k0 y : Int)
    (hi : r.injured = some i0) (hk : r.killed = some k0)
    (hy : r.year = some y)
    (hne : vehiclesInCollision r.labels ≠ []) :
    ((dedupFirst (vehiclesInCollision r.labels)).Nodup
      ∧ (dedupFirst (vehiclesInCollision r.labels)).Sublist
          (vehiclesInCollision r.labels)
      ∧ (∀ c, c ∈ dedupFirst (vehiclesInCollision r.labels) ↔
          c ∈ vehiclesInCollision r.labels))
    ∧ (∀ c ∈ dedupFirst (vehiclesInCollision r.labels),
        (foldRecord factor t r) c y =
          ((t c y).1 +
              (if y = 2025 then (i0 : ℚ) * factor else (i0 : ℚ)) /
                ((dedupFirst (vehiclesInCollision r.labels)).length : ℚ),
            (t c y).2 +
              (if y = 2025 then (k0 : ℚ) * factor else (k0 : ℚ)) /
                ((dedupFirst (vehiclesInCollision r.labels)).length : ℚ)))
    ∧ (∀ (c : String) (y2 : Int),
        c ∉ dedupFirst (vehiclesInCollision r.labels) ∨ y2 ≠ y →
          (foldRecord factor t r) c y2 = t c y2)
    ∧ vehiclesInCollision [some "Sedan", some "SEDAN", some "Bike"] =
        ["Passenger Vehicles", "Passenger Vehicles", "Bicycles/Scooters"]
    ∧ dedupFirst (vehiclesInCollision [some "Sedan", some "SEDAN", some "Bike"]) =
        ["Passenger Vehicles", "Bicycles/Scooters"] := by
  refine ⟨⟨nodup_dedupFirst _, sublist_dedupFirst _,
      fun c => mem_dedupFirst c _⟩, ?_, ?_, by decide, by decide⟩
  · intro c hc
    rw [foldRecord_apply factor t r i0 k0 y hi hk hy hne c y,
      if_pos ⟨hc, rfl⟩]
  · intro c y2 hor
    rw [foldRecord_apply factor t r i0 k0 y hi hk hy hne c y2]
    rcases hor with h | h
    · exact if_neg (fun hx => h hx.1)
    · exact if_neg (fun hx => h hx.2)

/-- Witness for C2 at a concrete record: labels Sedan, SEDAN, Bike with
injured 10, killed 4 in year 2023 give the Passenger Vehicles bucket half
of each count. -/
theorem claim_C2_even_split_witness :
    (foldRecord 1 emptyTable
        ⟨some 2023, [some "Sedan", some "SEDAN", some "Bike"], some 10, some 4⟩)
        "Passenger Vehicles" 2023 = (5, 2) := by
  have h := (claim_C2_even_split 1 emptyTable
    ⟨some 2023, [some "Sedan", some "SEDAN", some "Bike"], some 10, some 4⟩
    10 4 2023 rfl rfl rfl (by decide)).2.1 "Passenger Vehicles" (by decide)
  have hd : dedupFirst (vehiclesInCollision
      [some "Sedan", some "SEDAN", some "Bike"]) =
      ["Passenger Vehicles", "Bicycles/Scooters"] := by decide
  rw [hd] at h
  rw [h]
  norm_num [emptyTable]

/-- C7 (Empty-record exclusion): folding a record whose every label slot
is NaN, empty, or a missing-sentinel (empty string, unknown, nan after
trimming, case-insensitive — exactly the slots on which `validLabel`
yields nothing) leaves the yearly table and the per-vehicle table
unchanged, regardless of the records injured and killed values. -/
theorem claim_C7_empty_record_exclusion (factor : ℚ) (t : AggregateTable)
    (tv : VehicleTable) (r : RawRecord)
    (h : ∀ v ∈ r.labels, validLabel v = none) :
    foldRecord factor t r = t ∧ foldVehicleRecord tv r = tv := by
  have hvic : vehiclesInCollision r.labels = [] := by
    rw [vehiclesInCollision, List.filterMap_eq_nil_iff]
    intro v hv
    rw [h v hv]
    rfl
  have hraw : r.labels.filterMap validLabel = [] := by
    rw [List.filterMap_eq_nil_iff]
    exact h
  constructor
  · obtain ⟨yr, ls, inj, kil⟩ := r
    simp only at hvic
    rcases inj with _ | i0
    · cases kil <;> cases yr <;> rfl
    rcases kil with _ | k0
    · cases yr <;> rfl
    rcases yr with _ | y0
    · rfl
    rw [foldRecord]
    simp only [if_pos hvic]
  · rw [foldVehicleRecord]
    simp [hraw]

/-- Witness for C7: a record with only sentinel slots and nonzero counts
changes neither table. -/
theorem claim_C7_empty_record_exclusion_witness :
    foldRecord 1 emptyTable
        ⟨some 2023, [none, some "", some "   ", some " unknown ", some "NaN"],
          some 7, some 3⟩ = emptyTable
    ∧ foldVehicleRecord emptyVehicleTable
        ⟨some 2023, [none, some "", some "   ", some " unknown ", some "NaN"],
          some 7, some 3⟩ = emptyVehicleTable :=
  claim_C7_empty_record_exclusion 1 emptyTable emptyVehicleTable
    ⟨some 2023, [none, some "", some "   ", some " unknown ", some "NaN"],
      some 7, some 3⟩ (by decide)

/-- C10 (2020 cutoff in the bike fold): a record whose year is earlier
than 2020 contributes nothing to the fine-grained bike aggregation, even
with valid bike labels and nonzero counts. -/
theorem claim_C10_bike_cutoff (factor : ℚ) (t : AggregateTable)
    (r : RawRecord) (y : Int) (hy : r.year = some y) (hcut : y < 2020) :
    foldBikeRecord factor t r = t := by
  obtain ⟨yr, ls, inj, kil⟩ := r
  simp only at hy
  subst hy
  rcases inj with _ | i0
  · cases kil <;> rfl
  rcases kil with _ | k0
  · rfl
  rw [foldBikeRecord]
  simp only [if_pos hcut]

/-- Witness for C10: a 2019 record with a valid bike label and nonzero
counts is dropped by the bike fold. -/
theorem claim_C10_bike_cutoff_witness :
    foldBikeRecord 1 emptyTable
        ⟨some 2019, [some "Bike"], some 5, some 1⟩ = emptyTable :=
  claim_C10_bike_cutoff 1 emptyTable
    ⟨some 2019, [some "Bike"], some 5, some 1⟩ 2019 rfl (by decide)

/-- Evaluation of the C3 scenario under the bike fold of the source:
the unknown label Car is dropped by the bike mapping, so the whole 6 of
the second record goes to Traditional Bicycle. -/
lemma bikeScenarioTable_eval :
    bikeScenarioTable "Traditional Bicycle" 2023 = (41 / 2, 0)
    ∧ bikeScenarioTable "E-Bike" 2023 = (9 / 2, 0)
    ∧ bikeScenarioTable "Other/Unknown" 2023 = (0, 0) := by
  refine ⟨?_, ?_, ?_⟩ <;>
    · simp [bikeScenarioTable, foldBikeRecord, bikesInCollision, pyStrip,
        bike_mapping, List.lookup, dedupFirst, dedupFirstAux, addTally,
        emptyTable]
      try norm_num

/-- C3 counterexample: in the scenario of the claim the fine-grained bike
fold of the source yields Traditional Bicycle injured 20.5, not 17.5, and
Other/Unknown injured 0, not 3: `extract_bike_data_by_year` keeps only
labels that are keys of `bike_mapping` and has no fallback category, so
the unknown label Car is dropped and record two is attributed entirely to
Traditional Bicycle. -/
theorem claim_C3_counterexample :
    (bikeScenarioTable "Traditional Bicycle" 2023).1 = 41 / 2
    ∧ (bikeScenarioTable "Traditional Bicycle" 2023).1 ≠ 35 / 2
    ∧ (bikeScenarioTable "Other/Unknown" 2023).1 = 0
    ∧ (bikeScenarioTable "Other/Unknown" 2023).1 ≠ 3 := by
  obtain ⟨h1, _, h3⟩ := bikeScenarioTable_eval
  rw [h1, h3]
  norm_num

/-- C3 amended: folding the three records [Bike], [Bike, Car],
[BIKE, E-BIKE] with injured 10, 6, 9 (killed 0) in a year at or after the
2020 cutoff yields Traditional Bicycle injured 20.5 (10 + 6 + 4.5: the
unknown label Car is dropped, so Traditional Bicycle is the only category
of the second record and takes all of 6), E-Bike injured 4.5,
Other/Unknown untouched at 0, and the total injured preserved at 25. -/
theorem claim_C3_amended_scenario :
    (bikeScenarioTable "Traditional Bicycle" 2023).1 = 41 / 2
    ∧ (bikeScenarioTable "E-Bike" 2023).1 = 9 / 2
    ∧ (bikeScenarioTable "Other/Unknown" 2023).1 = 0
    ∧ (bikeScenarioTable "Traditional Bicycle" 2023).1
        + (bikeScenarioTable "E-Bike" 2023).1
        + (bikeScenarioTable "Other/Unknown" 2023).1 = 25 := by
  obtain ⟨h1, h2, h3⟩ := bikeScenarioTable_eval
  rw [h1, h2, h3]
  norm_num

/-- C4 counterexample: the fine-grained bike classifier of the source is
a bare key test on `bike_mapping` with no fallback: for the non-sentinel,
non-key input Car it produces no category at all (the slot is dropped by
the bike fold), while the coarse classifier does return the fallback.
So totality-with-fallback does not hold for both variants. -/
theorem claim_C4_counterexample :
    bike_mapping.lookup "Car" = none
    ∧ bikesInCollision [some "Car"] = []
    ∧ vehiclesInCollision [some "Car"] = ["Other/Unknown"] := by
  refine ⟨?_, ?_, ?_⟩ <;> decide

/-- C4 amended: the coarse classifier is total and returns the fallback
category Other/Unknown on every input that is not an explicit key of the
table, and the table value on every key (note the explicit keys UNKNOWN
and OTHER themselves map to Other/Unknown); the fine-grained bike variant
instead has no fallback: a trimmed label that is not a key of
`bike_mapping` yields no category and the bike fold drops the slot. -/
theorem claim_C4_amended_classifier (s : String) :
    (category_mapping.lookup s = none → classify s = "Other/Unknown")
    ∧ (∀ v, category_mapping.lookup s = some v → classify s = v)
    ∧ (bike_mapping.lookup (pyStrip s) = none →
        bikesInCollision [some s] = []) := by
  refine ⟨fun h => ?_, fun v h => ?_, fun h => ?_⟩
  · rw [classify, h]
    rfl
  · rw [classify, h]
    rfl
  · rw [bikesInCollision]
    simp [h]

/-- Witness for the amended C4 at the concrete non-key input Car. -/
theorem claim_C4_amended_classifier_witness :
    classify "Car" = "Other/Unknown" ∧ bikesInCollision [some "Car"] = [] :=
  ⟨(claim_C4_amended_classifier "Car").1 (by decide),
    (claim_C4_amended_classifier "Car").2.2 (by decide)⟩

/-- C5 counterexample: a record with a non-numeric injured field and a
valid killed count of 5.  The bike fold (and the yearly fold, whose
except clause is also `continue`) excludes the record entirely — the
table is unchanged and the valid killed count 5 is never folded — and
the per-vehicle fold of src/pedestrian_analysis.py zeroes both counts, so
the valid counterpart 5 is also not folded there.  Both contradict the
claim that the record is still processed with its valid counterpart
count folded. -/
theorem claim_C5_counterexample :
    foldBikeRecord 1 emptyTable
        ⟨some 2023, [some "Bike"], none, some 5⟩ = emptyTable
    ∧ (foldBikeRecord 1 emptyTable
        ⟨some 2023, [some "Bike"], none, some 5⟩)
        "Traditional Bicycle" 2023 ≠ (0, 5)
    ∧ (foldVehicleRecord emptyVehicleTable
        ⟨some 2023, [some "Sedan"], none, some 5⟩) "Sedan" ≠ (0, 5) := by
  refine ⟨rfl, ?_, ?_⟩
  · have h : (foldBikeRecord 1 emptyTable
        ⟨some 2023, [some "Bike"], none, some 5⟩)
        "Traditional Bicycle" 2023 = (0, 0) := rfl
    rw [h]
    norm_num [Prod.ext_iff]
  · have h : (foldVehicleRecord emptyVehicleTable
        ⟨some 2023, [some "Sedan"], none, some 5⟩) "Sedan" = (0, 0) := by
      simp [foldVehicleRecord, validLabel, pyStrip, pyUpper, vehAddTally,
        emptyVehicleTable]
    rw [h]
    norm_num [Prod.ext_iff]

/-- C5 amended: a malformed (non-numeric or missing) injured or killed
field never aborts the run; in the bike and yearly folds it causes that
single record to be skipped (table unchanged), and in the per-vehicle
fold of src/pedestrian_analysis.py both counts — including a valid
counterpart — degrade to 0, so the record is folded with zero
contributions and the table is numerically unchanged. -/
theorem claim_C5_amended_degradation (factor : ℚ) (t : AggregateTable)
    (tv : VehicleTable) (r : RawRecord)
    (h : r.injured = none ∨ r.killed = none) :
    foldBikeRecord factor t r = t
    ∧ foldRecord factor t r = t
    ∧ foldVehicleRecord tv r = tv :=
  ⟨foldBikeRecord_malformed factor t r h,
    foldRecord_malformed factor t r h,
    foldVehicleRecord_degraded tv r h⟩

/-- Witness for the amended C5 at a concrete record with a non-numeric
injured field and killed 5. -/
theorem claim_C5_amended_degradation_witness :
    foldBikeRecord 1 emptyTable
        ⟨some 2023, [some "Bike"], none, some 5⟩ = emptyTable
    ∧ foldRecord 1 emptyTable
        ⟨some 2023, [some "Bike"], none, some 5⟩ = emptyTable
    ∧ foldVehicleRecord emptyVehicleTable
        ⟨some 2023, [some "Bike"], none, some 5⟩ = emptyVehicleTable :=
  claim_C5_amended_degradation 1 emptyTable emptyVehicleTable
    ⟨some 2023, [some "Bike"], none, some 5⟩ (Or.inl rfl)

/-- C6 counterexample: the fold performs no clamping, so a record
carrying injured = -5 with a valid label drives the Bicycles/Scooters
tally for 2023 below zero, violating the claimed invariant for sequences
that include negative counts. -/
theorem claim_C6_counterexample :
    ((foldRecord 1 emptyTable
        ⟨some 2023, [some "Bike"], some (-5), some 0⟩)
        "Bicycles/Scooters" 2023).1 < 0 := by
  have h : (foldRecord 1 emptyTable
      ⟨some 2023, [some "Bike"], some (-5), some 0⟩)
      "Bicycles/Scooters" 2023 = (-5, 0) := by
    simp [foldRecord, vehiclesInCollision, validLabel, pyStrip, pyUpper,
      classify, category_mapping, List.lookup, dedupFirst, dedupFirstAux,
      addTally, emptyTable]
    try norm_num
  rw [h]
  norm_num

/-- C6 amended: after every fold operation every tally is nonnegative,
for every sequence of input records whose parsed injured and killed
counts are nonnegative and every nonnegative factor, starting from a
table of nonnegative tallies; a record with a negative count is not
rejected and its negative share simply flows into the tally, as the
counterexample shows. -/
theorem claim_C6_amended_nonneg (factor : ℚ) (hf : 0 ≤ factor)
    (rs : List RawRecord) (t : AggregateTable)
    (ht : ∀ c y, 0 ≤ (t c y).1 ∧ 0 ≤ (t c y).2)
    (hr : ∀ r ∈ rs, (∀ i, r.injured = some i → 0 ≤ i) ∧
      (∀ k, r.killed = some k → 0 ≤ k)) :
    ∀ c y, 0 ≤ ((rs.foldl (foldRecord factor) t) c y).1
      ∧ 0 ≤ ((rs.foldl (foldRecord factor) t) c y).2 := by
  induction rs generalizing t with
  | nil => exact ht
  | cons a rs ih =>
    rw [List.foldl_cons]
    exact ih (foldRecord factor t a)
      (foldRecord_preserves_nonneg factor hf t a ht
        (hr a (List.mem_cons_self a rs)).1
        (hr a (List.mem_cons_self a rs)).2)
      (fun r hmem => hr r (List.mem_cons_of_mem a hmem))

/-- Witness for the amended C6: one nonnegative record folded from the
empty table keeps the touched tally nonnegative. -/
theorem claim_C6_amended_nonneg_witness :
    0 ≤ ((([(⟨some 2023, [some "Bike"], some 5, some 2⟩ : RawRecord)]).foldl
        (foldRecord 1) emptyTable) "Bicycles/Scooters" 2023).1 :=
  (claim_C6_amended_nonneg 1 (by norm_num)
    [⟨some 2023, [some "Bike"], some 5, some 2⟩] emptyTable
    (fun c y => by constructor <;> simp [emptyTable])
    (fun r hmem => by
      rw [List.mem_singleton] at hmem
      subst hmem
      refine ⟨fun i h => ?_, fun k h => ?_⟩
      · injection h with h2
        omega
      · injection h with h2
        omega)
    "Bicycles/Scooters" 2023).1

/-- C8 (Scaling commutes with summation): for every finite list of
records of one time bucket and every factor, projecting the fully-folded
bucket once equals folding the same records with both counts
pre-multiplied by the factor, exactly, in rational arithmetic.  The
second conjunct instantiates this for the source fold itself, whose
inline pre-multiplication applies exactly to the bucket 2025. -/
theorem claim_C8_projection_commutes (f : ℚ) (y : Int)
    (rs : List RawRecord) (h : ∀ r ∈ rs, r.year = some y) :
    projectBucket f y (rs.foldl (foldRecordPre 1) emptyTable)
      = rs.foldl (foldRecordPre f) emptyTable
    ∧ (y = 2025 →
        projectBucket f y (rs.foldl (foldRecord 1) emptyTable)
          = rs.foldl (foldRecord f) emptyTable) := by
  have h1 : projectBucket f y (rs.foldl (foldRecordPre 1) emptyTable)
      = rs.foldl (foldRecordPre f) (projectBucket f y emptyTable) :=
    projectBucket_foldl f y rs h emptyTable
  rw [projectBucket_emptyTable] at h1
  refine ⟨h1, fun hy2025 => ?_⟩
  subst hy2025
  rw [foldl_foldRecord_eq_pre_2025 1 rs h emptyTable,
    foldl_foldRecord_eq_pre_2025 f rs h emptyTable]
  exact h1

/-- Witness for C8: one year-2025 record, factor 2. -/
theorem claim_C8_projection_commutes_witness :
    projectBucket 2 2025
        ([(⟨some 2025, [some "Bike"], some 10, some 0⟩ : RawRecord)].foldl
          (foldRecordPre 1) emptyTable)
      = [(⟨some 2025, [some "Bike"], some 10, some 0⟩ : RawRecord)].foldl
          (foldRecordPre 2) emptyTable
    ∧ ((2025 : Int) = 2025 →
        projectBucket 2 2025
            ([(⟨some 2025, [some "Bike"], some 10, some 0⟩ : RawRecord)].foldl
              (foldRecord 1) emptyTable)
          = [(⟨some 2025, [some "Bike"], some 10, some 0⟩ : RawRecord)].foldl
              (foldRecord 2) emptyTable) :=
  claim_C8_projection_commutes 2 2025
    [⟨some 2025, [some "Bike"], some 10, some 0⟩] (by decide)

/-- C9 (Division-by-zero guard): the projection factor of the source is
365 / observed days when the observed day count is positive and is forced
to 1 whenever it is zero or negative, and projecting a bucket with the
factor obtained from zero observed days leaves every tally of the table
unchanged. -/
theorem claim_C9_projection_guard :
    (∀ d : Int, 0 < d → projectionFactor d = 365 / (d : ℚ))
    ∧ (∀ d : Int, d ≤ 0 → projectionFactor d = 1)
    ∧ (∀ (t : AggregateTable) (y : Int),
        projectBucket (projectionFactor 0) y t = t) := by
  refine ⟨fun d hd => if_pos hd, fun d hd => if_neg (not_lt.mpr hd),
    fun t y => ?_⟩
  have h1 : projectionFactor 0 = 1 := if_neg (lt_irrefl 0)
  rw [h1]
  funext c y2
  by_cases h : y2 = y <;> simp [projectBucket, h]

/-- Witness for C9 at observed day counts 146 and 0. -/
theorem claim_C9_projection_guard_witness :
    projectionFactor 146 = 365 / (146 : ℚ)
    ∧ projectionFactor 0 = 1
    ∧ projectBucket (projectionFactor 0) 2025 emptyTable = emptyTable :=
  ⟨claim_C9_projection_guard.1 146 (by norm_num),
    claim_C9_projection_guard.2.1 0 le_rfl,
    claim_C9_projection_guard.2.2 emptyTable 2025⟩
